import Mathlib

/-!
Shallow embedding of the order-processing core of the point-of-sale backend
(`src/server.js` together with the schema in `src/init-sqlite.sql`).

The database is modelled as explicit lists of rows for the three tables
`orders`, `authorizations` and `settlements`, plus the AUTOINCREMENT
counters for the two surrogate keys.  Timestamps are abstract clock values
(`Nat`); every HTTP request receives the current clock value `now` as a
parameter, standing for `CURRENT_TIMESTAMP` / `new Date()`.  Monetary
amounts are rationals (`ℚ`), standing for the already-parsed finite JS
numbers that pass the `Number.isFinite` guard.  `Math.random()` and
`crypto.randomBytes(8).toString("hex")` are modelled as extra input
parameters (`r : ℚ`, `randomHex : String`): the functions are otherwise
deterministic in those draws.
-/

namespace PosBackend

/-- Order lifecycle states, the CHECK constraint on `orders.status`. -/
inductive OrderStatus
  | PENDING
  | AUTHORIZED
  | DECLINED
  | ERROR
  | SETTLED
deriving DecidableEq, Repr

/-- Coarse authorization outcomes, the CHECK constraint on `authorizations.outcome`. -/
inductive AuthOutcome
  | SUCCESS
  | DECLINED
  | ERROR
deriving DecidableEq, Repr

/-- The four-way mock gateway result returned by `pickAuthOutcomeWeighted`. -/
inductive CheckoutResult
  | SUCCESS
  | INSUFFICIENT_FUNDS
  | INCORRECT_DETAILS
  | SERVER_ERROR
deriving DecidableEq, Repr

/-- A row of the `orders` table (init-sqlite.sql, `order_id` primary key). -/
structure OrderRow where
  order_id : String
  customer_id : Nat
  status : OrderStatus
  total_amount : ℚ
  created_at : Nat
  updated_at : Nat
deriving DecidableEq, Repr

/-- A row of the `authorizations` table.  `auth_token` and `auth_expires_at`
are nullable columns. -/
structure AuthRow where
  auth_id : Nat
  order_id : String
  outcome : AuthOutcome
  gateway_code : String
  gateway_message : String
  amount : ℚ
  auth_token : Option String
  auth_expires_at : Option Nat
  created_at : Nat
deriving DecidableEq, Repr

/-- A row of the `settlements` table. -/
structure SettlementRow where
  settlement_id : Nat
  order_id : String
  amount : ℚ
  settled_at : Nat
deriving DecidableEq, Repr

/-- The mutable database state: the three tables of the payment core, plus
the next values of the AUTOINCREMENT surrogate keys. -/
structure DB where
  orders : List OrderRow
  authorizations : List AuthRow
  settlements : List SettlementRow
  nextAuthId : Nat
  nextSettlementId : Nat
deriving DecidableEq, Repr

/-- A freshly created database (no rows; AUTOINCREMENT counters start at 1). -/
def dbEmpty : DB :=
  { orders := [], authorizations := [], settlements := [],
    nextAuthId := 1, nextSettlementId := 1 }

/-- Seven days, in milliseconds of the abstract clock; stands for the
`expires.setDate(expires.getDate() + 7)` computation in `generateAuthToken`. -/
def sevenDays : Nat := 7 * 24 * 60 * 60 * 1000

/-- `pickAuthOutcomeWeighted` (server.js:190-196), with the `Math.random()`
draw `r` made an explicit argument. -/
def pickAuthOutcomeWeighted (r : ℚ) : CheckoutResult :=
  if r < 60/100 then .SUCCESS
  else if r < 77/100 then .INSUFFICIENT_FUNDS
  else if r < 94/100 then .INCORRECT_DETAILS
  else .SERVER_ERROR

/-- `generateAuthToken` (server.js:199-208): token is the order id, an
underscore, and the random hex suffix; expiry is now + 7 days. -/
def generateAuthToken (orderId randomHex : String) (now : Nat) : String × Nat :=
  (orderId ++ "_" ++ randomHex, now + sevenDays)

/-- `SELECT ... FROM orders WHERE order_id = ?` — the first (and, with the
primary key intact, only) matching row. -/
def findOrder (db : DB) (orderId : String) : Option OrderRow :=
  db.orders.find? fun o => o.order_id = orderId

/-- Whether any `authorizations` row exists for the order: the
`SELECT auth_id ... LIMIT 1` existence probe in `ensureAuthorizationForOrder`. -/
def hasAuthFor (db : DB) (orderId : String) : Bool :=
  db.authorizations.any fun a => a.order_id = orderId

/-- `INSERT INTO authorizations (...)`: appends a row with the next
AUTOINCREMENT `auth_id` and `created_at = CURRENT_TIMESTAMP`. -/
def insertAuth (db : DB) (orderId : String) (outcome : AuthOutcome)
    (code msg : String) (amount : ℚ) (tok : Option String) (exp : Option Nat)
    (now : Nat) : DB :=
  { db with
    authorizations := db.authorizations ++
      [{ auth_id := db.nextAuthId, order_id := orderId, outcome := outcome,
         gateway_code := code, gateway_message := msg, amount := amount,
         auth_token := tok, auth_expires_at := exp, created_at := now }],
    nextAuthId := db.nextAuthId + 1 }

/-- `INSERT INTO settlements (order_id, amount) VALUES (?, ?)`. -/
def insertSettlement (db : DB) (orderId : String) (amount : ℚ) (now : Nat) : DB :=
  { db with
    settlements := db.settlements ++
      [{ settlement_id := db.nextSettlementId, order_id := orderId,
         amount := amount, settled_at := now }],
    nextSettlementId := db.nextSettlementId + 1 }

/-- The `INSERT ... ON CONFLICT(order_id) DO UPDATE` upsert used by
`/orders/checkout` (server.js:366-376) and `/seed-orders`: insert a new row
if `order_id` is unseen, else overwrite `customer_id`, `status`,
`total_amount` and refresh `updated_at` (keeping `created_at`). -/
def upsertOrder (db : DB) (orderId : String) (customerId : Nat)
    (st : OrderStatus) (amount : ℚ) (now : Nat) : DB :=
  if db.orders.any (fun o => o.order_id = orderId) then
    { db with orders := db.orders.map fun o =>
        if o.order_id = orderId then
          { o with customer_id := customerId, status := st,
                   total_amount := amount, updated_at := now }
        else o }
  else
    { db with orders := db.orders ++
        [{ order_id := orderId, customer_id := customerId, status := st,
           total_amount := amount, created_at := now, updated_at := now }] }

/-- `UPDATE orders SET status = 'SETTLED', updated_at = CURRENT_TIMESTAMP
WHERE order_id = ?` (server.js:467-474). -/
def settleUpdateOrder (db : DB) (orderId : String) (now : Nat) : DB :=
  { db with orders := db.orders.map fun o =>
      if o.order_id = orderId then
        { o with status := .SETTLED, updated_at := now }
      else o }

/-- `ensureAuthorizationForOrder` (server.js:211-245): if the order already
has an authorization row, do nothing; otherwise insert a SUCCESS row with
gateway code `00`, message `Approved for settlement`, the given amount
(the caller passes the order's `total_amount`), a fresh token, and expiry
now + 7 days. -/
def ensureAuthorizationForOrder (db : DB) (orderId : String) (amount : ℚ)
    (randomHex : String) (now : Nat) : DB :=
  if hasAuthFor db orderId then db
  else
    let te := generateAuthToken orderId randomHex now
    insertAuth db orderId .SUCCESS "00" "Approved for settlement" amount
      (some te.1) (some te.2) now

/-- Order status derived from the four-way result (server.js:324-330). -/
def orderStatusOf : CheckoutResult → OrderStatus
  | .SUCCESS => .AUTHORIZED
  | .INSUFFICIENT_FUNDS => .DECLINED
  | .INCORRECT_DETAILS => .DECLINED
  | .SERVER_ERROR => .ERROR

/-- Coarse authorization outcome derived from the order status
(server.js:334-339). -/
def authOutcomeOf : OrderStatus → AuthOutcome
  | .AUTHORIZED => .SUCCESS
  | .DECLINED => .DECLINED
  | _ => .ERROR

/-- Gateway code/message per four-way result (the `switch` at
server.js:345-363). -/
def gatewayOf : CheckoutResult → String × String
  | .SUCCESS => ("00", "Approved")
  | .INSUFFICIENT_FUNDS => ("51", "Insufficient funds")
  | .INCORRECT_DETAILS => ("14", "Incorrect card details")
  | .SERVER_ERROR => ("XX", "Authorization server error")

/-- The JSON body of a successful `/orders/checkout` response
(server.js:409-414). -/
structure CheckoutOk where
  orderId : String
  result : CheckoutResult
  status : OrderStatus
  outcome : AuthOutcome
deriving DecidableEq, Repr

/-- Responses of `POST /orders/checkout`. -/
inductive CheckoutResponse
  | missingFields
  | invalidAmount
  | dbErrorOrders
  | dbErrorAuthorizations
  | ok (body : CheckoutOk)
deriving DecidableEq, Repr

/-- HTTP status code of each checkout response. -/
def CheckoutResponse.httpStatus : CheckoutResponse → Nat
  | .missingFields => 400
  | .invalidAmount => 400
  | .dbErrorOrders => 500
  | .dbErrorAuthorizations => 500
  | .ok _ => 200

/-- `POST /orders/checkout` (server.js:304-419), with the random draw `r`
and the request-processing time `now` explicit.  A falsy `orderId` is the
empty string; a falsy `customerId` is 0; `amount ≤ 0` fails the
positive-finite guard. -/
def checkout (db : DB) (orderId : String) (customerId : Nat) (amount : ℚ)
    (r : ℚ) (now : Nat) : DB × CheckoutResponse :=
  if orderId = "" ∨ customerId = 0 then (db, .missingFields)
  else if amount ≤ 0 then (db, .invalidAmount)
  else
    let detailedResult := pickAuthOutcomeWeighted r
    let orderStatus := orderStatusOf detailedResult
    let authOutcome := authOutcomeOf orderStatus
    let gw := gatewayOf detailedResult
    let db1 := upsertOrder db orderId customerId orderStatus amount now
    let db2 := insertAuth db1 orderId authOutcome gw.1 gw.2 amount none none now
    (db2, .ok { orderId := orderId, result := detailedResult,
                status := orderStatus, outcome := authOutcome })

/-- `POST /orders/checkout` on the execution where the `orders` upsert
succeeds but the subsequent `authorizations` INSERT returns an error
(the `authErr` branch at server.js:396-405): the handler answers 500 and
the already-applied order upsert is not rolled back (no transaction). -/
def checkoutAuthInsertFails (db : DB) (orderId : String) (customerId : Nat)
    (amount : ℚ) (r : ℚ) (now : Nat) : DB × CheckoutResponse :=
  if orderId = "" ∨ customerId = 0 then (db, .missingFields)
  else if amount ≤ 0 then (db, .invalidAmount)
  else
    let detailedResult := pickAuthOutcomeWeighted r
    let orderStatus := orderStatusOf detailedResult
    let db1 := upsertOrder db orderId customerId orderStatus amount now
    (db1, .dbErrorAuthorizations)

/-- Responses of `POST /payments/settle`. -/
inductive SettleResponse
  | missingFields
  | invalidAmount
  | notFound
  | notAuthorized
  | ok (orderId : String)
deriving DecidableEq, Repr

/-- HTTP status code of each settle response. -/
def SettleResponse.httpStatus : SettleResponse → Nat
  | .missingFields => 400
  | .invalidAmount => 400
  | .notFound => 404
  | .notAuthorized => 400
  | .ok _ => 200

/-- The `error` field of each settle response body (none on success). -/
def SettleResponse.errorMessage : SettleResponse → Option String
  | .missingFields => some "Missing fields"
  | .invalidAmount => some "Invalid amount"
  | .notFound => some "Order not found"
  | .notAuthorized => some "Order not authorized, cannot settle"
  | .ok _ => none

/-- The `db.get` SELECT at server.js:440-442: captures the order row (or
nothing) for the settle handler's callback. -/
def settleRead (db : DB) (orderId : String) : Option OrderRow :=
  findOrder db orderId

/-- The settle handler's callback body (server.js:443-489), run against the
database state current when it executes, with `ordRead` the order row its
earlier SELECT captured: 404 if absent, 400 if the captured status is not
AUTHORIZED, otherwise ensure an authorization exists, insert the settlement
row for the requested amount, and flip the order to SETTLED. -/
def settleFinish (db : DB) (orderId : String) (amount : ℚ)
    (ordRead : Option OrderRow) (randomHex : String) (now : Nat) :
    DB × SettleResponse :=
  match ordRead with
  | none => (db, .notFound)
  | some ord =>
    if ord.status ≠ OrderStatus.AUTHORIZED then (db, .notAuthorized)
    else
      let db1 := ensureAuthorizationForOrder db orderId ord.total_amount
        randomHex now
      let db2 := insertSettlement db1 orderId amount now
      let db3 := settleUpdateOrder db2 orderId now
      (db3, .ok orderId)

/-- `POST /payments/settle` (server.js:428-491) run without interleaving:
validation guards, then the SELECT immediately followed by its callback. -/
def settle (db : DB) (orderId : String) (amount : ℚ) (randomHex : String)
    (now : Nat) : DB × SettleResponse :=
  if orderId = "" then (db, .missingFields)
  else if amount ≤ 0 then (db, .invalidAmount)
  else settleFinish db orderId amount (settleRead db orderId) randomHex now

/-- The ten-order fixture of `POST /seed-orders` (server.js:545-556). -/
def sampleOrders : List (String × Nat × OrderStatus × ℚ) :=
  [("ORD9001", 1, .AUTHORIZED, 455/10),
   ("ORD9002", 2, .DECLINED, 782/10),
   ("ORD9003", 3, .SETTLED, 2399/100),
   ("ORD9004", 4, .ERROR, 5177/100),
   ("ORD9005", 1, .AUTHORIZED, 674/10),
   ("ORD9006", 2, .AUTHORIZED, 1599/100),
   ("ORD9007", 3, .DECLINED, 901/10),
   ("ORD9008", 4, .AUTHORIZED, 123/10),
   ("ORD9009", 1, .ERROR, 120),
   ("ORD9010", 2, .AUTHORIZED, 4444/100)]

/-- `POST /seed-orders` (server.js:544-574): upserts the ten sample orders
(no authorization or settlement rows). -/
def seedOrders (db : DB) (now : Nat) : DB :=
  sampleOrders.foldl (fun d o => upsertOrder d o.1 o.2.1 o.2.2.1 o.2.2.2 now) db

/-- The body of a `GET /stats` response (server.js:496-539). -/
structure StatsOut where
  totalsByStatus : List (OrderStatus × Nat)
  totalsALL : Nat
  recentOrders : List OrderRow
  settled_total : ℚ
deriving DecidableEq, Repr

/-- `SELECT status, COUNT(*) FROM orders GROUP BY status`: one pair per
status actually present. -/
def statusCounts (db : DB) : List (OrderStatus × Nat) :=
  ((db.orders.map fun o => o.status).dedup).map fun s =>
    (s, (db.orders.filter fun o => o.status = s).length)

/-- Insertion of one row into a list kept sorted by `created_at` descending. -/
def insertByCreatedDesc (o : OrderRow) : List OrderRow → List OrderRow
  | [] => [o]
  | x :: xs =>
    if x.created_at ≤ o.created_at then o :: x :: xs
    else x :: insertByCreatedDesc o xs

/-- `ORDER BY created_at DESC` over the orders table (insertion sort). -/
def sortByCreatedDesc : List OrderRow → List OrderRow
  | [] => []
  | x :: xs => insertByCreatedDesc x (sortByCreatedDesc xs)

/-- `GET /stats` (server.js:496-539): the handler issues only SELECTs, so
the database component of the result is the input state unchanged. -/
def stats (db : DB) : DB × StatsOut :=
  (db,
   { totalsByStatus := statusCounts db,
     totalsALL := db.orders.length,
     recentOrders := (sortByCreatedDesc db.orders).take 5,
     settled_total := (db.settlements.map fun s => s.amount).sum })

/-- The inputs of one `/orders/checkout` request for a fixed order id. -/
structure CheckoutCall where
  customerId : Nat
  amount : ℚ
  r : ℚ
  now : Nat
deriving DecidableEq, Repr, Inhabited

/-- A sequence of checkout requests for the same order id, applied in order. -/
def runCheckouts (db : DB) (orderId : String) : List CheckoutCall → DB
  | [] => db
  | c :: cs =>
    runCheckouts (checkout db orderId c.customerId c.amount c.r c.now).1 orderId cs

/-- The `orders` rows whose `order_id` matches. -/
def ordersFor (db : DB) (orderId : String) : List OrderRow :=
  db.orders.filter fun o => o.order_id = orderId

/-- The `authorizations` rows whose `order_id` matches. -/
def authsFor (db : DB) (orderId : String) : List AuthRow :=
  db.authorizations.filter fun a => a.order_id = orderId

/-- The order row a checkout call leaves behind for its order id:
`created_at` from the original insert, everything else from this call. -/
def rowOf (orderId : String) (c : CheckoutCall) (created : Nat) : OrderRow :=
  { order_id := orderId, customer_id := c.customerId,
    status := orderStatusOf (pickAuthOutcomeWeighted c.r),
    total_amount := c.amount, created_at := created, updated_at := c.now }

/-- Database states reachable from a fresh database through the write
endpoints of the service. -/
inductive Reachable : DB → Prop
  | empty : Reachable dbEmpty
  | checkout (db : DB) (oid : String) (cid : Nat) (amt r : ℚ) (now : Nat) :
      Reachable db → Reachable (checkout db oid cid amt r now).1
  | settle (db : DB) (oid : String) (amt : ℚ) (rh : String) (now : Nat) :
      Reachable db → Reachable (settle db oid amt rh now).1
  | seed (db : DB) (now : Nat) : Reachable db → Reachable (seedOrders db now)

/-- Fixture: the state after a declined checkout of ORD1 — one DECLINED
order with its declined authorization row. -/
def dbDeclined : DB :=
  { orders := [{ order_id := "ORD1", customer_id := 1,
                 status := OrderStatus.DECLINED, total_amount := 50,
                 created_at := 5, updated_at := 5 }],
    authorizations := [{ auth_id := 1, order_id := "ORD1",
                         outcome := AuthOutcome.DECLINED, gateway_code := "51",
                         gateway_message := "Insufficient funds", amount := 50,
                         auth_token := none, auth_expires_at := none,
                         created_at := 5 }],
    settlements := [], nextAuthId := 2, nextSettlementId := 1 }

/-- Fixture: the state after a successful checkout of ORD1 — one AUTHORIZED
order with its SUCCESS authorization row. -/
def dbAuth : DB :=
  { orders := [{ order_id := "ORD1", customer_id := 1,
                 status := OrderStatus.AUTHORIZED, total_amount := 50,
                 created_at := 5, updated_at := 5 }],
    authorizations := [{ auth_id := 1, order_id := "ORD1",
                         outcome := AuthOutcome.SUCCESS, gateway_code := "00",
                         gateway_message := "Approved", amount := 50,
                         auth_token := none, auth_expires_at := none,
                         created_at := 5 }],
    settlements := [], nextAuthId := 2, nextSettlementId := 1 }

/-- Fixture: a pre-seeded AUTHORIZED order with no authorization trail, as
`/seed-orders` leaves behind. -/
def dbAuthNoTrail : DB :=
  { orders := [{ order_id := "ORD9001", customer_id := 1,
                 status := OrderStatus.AUTHORIZED, total_amount := 45,
                 created_at := 2, updated_at := 2 }],
    authorizations := [], settlements := [],
    nextAuthId := 1, nextSettlementId := 1 }

end PosBackend

namespace PosBackend

/-! ### Helper lemmas about the table primitives -/

@[simp]
theorem upsertOrder_authorizations (db : DB) (oid : String) (cid : Nat)
    (st : OrderStatus) (amt : ℚ) (now : Nat) :
    (upsertOrder db oid cid st amt now).authorizations = db.authorizations := by
  unfold upsertOrder; split <;> rfl

@[simp]
theorem upsertOrder_settlements (db : DB) (oid : String) (cid : Nat)
    (st : OrderStatus) (amt : ℚ) (now : Nat) :
    (upsertOrder db oid cid st amt now).settlements = db.settlements := by
  unfold upsertOrder; split <;> rfl

@[simp]
theorem upsertOrder_nextAuthId (db : DB) (oid : String) (cid : Nat)
    (st : OrderStatus) (amt : ℚ) (now : Nat) :
    (upsertOrder db oid cid st amt now).nextAuthId = db.nextAuthId := by
  unfold upsertOrder; split <;> rfl

@[simp]
theorem upsertOrder_nextSettlementId (db : DB) (oid : String) (cid : Nat)
    (st : OrderStatus) (amt : ℚ) (now : Nat) :
    (upsertOrder db oid cid st amt now).nextSettlementId = db.nextSettlementId := by
  unfold upsertOrder; split <;> rfl

@[simp]
theorem ensureAuth_settlements (db : DB) (oid : String) (amt : ℚ)
    (rh : String) (now : Nat) :
    (ensureAuthorizationForOrder db oid amt rh now).settlements =
      db.settlements := by
  unfold ensureAuthorizationForOrder insertAuth; split <;> rfl

@[simp]
theorem ensureAuth_orders (db : DB) (oid : String) (amt : ℚ)
    (rh : String) (now : Nat) :
    (ensureAuthorizationForOrder db oid amt rh now).orders = db.orders := by
  unfold ensureAuthorizationForOrder insertAuth; split <;> rfl

@[simp]
theorem ensureAuth_nextSettlementId (db : DB) (oid : String) (amt : ℚ)
    (rh : String) (now : Nat) :
    (ensureAuthorizationForOrder db oid amt rh now).nextSettlementId =
      db.nextSettlementId := by
  unfold ensureAuthorizationForOrder insertAuth; split <;> rfl

@[simp]
theorem insertSettlement_orders (db : DB) (oid : String) (amt : ℚ) (now : Nat) :
    (insertSettlement db oid amt now).orders = db.orders := rfl

@[simp]
theorem insertSettlement_authorizations (db : DB) (oid : String) (amt : ℚ)
    (now : Nat) :
    (insertSettlement db oid amt now).authorizations = db.authorizations := rfl

@[simp]
theorem settleUpdateOrder_settlements (db : DB) (oid : String) (now : Nat) :
    (settleUpdateOrder db oid now).settlements = db.settlements := rfl

@[simp]
theorem settleUpdateOrder_authorizations (db : DB) (oid : String) (now : Nat) :
    (settleUpdateOrder db oid now).authorizations = db.authorizations := rfl

end PosBackend

namespace PosBackend

/-! ### C1 — settle on a missing or non-AUTHORIZED order -/

/-- C1: for every `settle(orderId, amount)` call with non-empty `orderId`
and positive amount, if no order row with that id exists the call answers
NotFound (HTTP 404) and leaves every table unchanged; if the order exists
with a status other than AUTHORIZED the call answers InvalidState
(HTTP 400, "Order not authorized, cannot settle") and leaves every table
unchanged. -/
theorem settle_rejects_missing_or_unauthorized (db : DB) (orderId : String)
    (amount : ℚ) (randomHex : String) (now : Nat)
    (hid : orderId ≠ "") (hamt : 0 < amount) :
    (settleRead db orderId = none →
      settle db orderId amount randomHex now = (db, SettleResponse.notFound) ∧
      SettleResponse.notFound.httpStatus = 404) ∧
    (∀ ord, settleRead db orderId = some ord →
      ord.status ≠ OrderStatus.AUTHORIZED →
      settle db orderId amount randomHex now =
        (db, SettleResponse.notAuthorized) ∧
      SettleResponse.notAuthorized.httpStatus = 400 ∧
      SettleResponse.notAuthorized.errorMessage =
        some "Order not authorized, cannot settle") := by
  have hle : ¬ amount ≤ 0 := not_le.mpr hamt
  constructor
  · intro hnone
    refine ⟨?_, rfl⟩
    simp [settle, hid, hle, hnone, settleFinish]
  · intro ord hsome hst
    refine ⟨?_, rfl, rfl⟩
    simp [settle, hid, hle, hsome, settleFinish, hst]

/-- Witness for C1: on the state left by a declined checkout, settling an
unknown order id answers NotFound, and settling the declined order answers
InvalidState; neither changes the database. -/
theorem settle_rejects_missing_or_unauthorized_witness :
    settle dbDeclined "ORDX" 5 "ab" 9 = (dbDeclined, SettleResponse.notFound) ∧
    settle dbDeclined "ORD1" 5 "ab" 9 =
      (dbDeclined, SettleResponse.notAuthorized) := by
  constructor
  · exact ((settle_rejects_missing_or_unauthorized dbDeclined "ORDX" 5 "ab" 9
      (by decide) (by norm_num)).1 (by decide)).1
  · exact ((settle_rejects_missing_or_unauthorized dbDeclined "ORD1" 5 "ab" 9
      (by decide) (by norm_num)).2
      { order_id := "ORD1", customer_id := 1,
        status := OrderStatus.DECLINED, total_amount := 50,
        created_at := 5, updated_at := 5 }
      (by decide) (by decide)).1

/-! ### C2 — settle on an AUTHORIZED order -/

/-- C2: settling an existing AUTHORIZED order with any positive amount
appends exactly one Settlement row carrying that amount (no comparison
against the order's `total_amount`), rewrites that order's status to
SETTLED with `updated_at` refreshed, and answers
`{orderId, paymentStatus: "SETTLED"}` with HTTP 200. -/
theorem settle_authorized_success (db : DB) (orderId : String) (amount : ℚ)
    (randomHex : String) (now : Nat) (ord : OrderRow)
    (hid : orderId ≠ "") (hamt : 0 < amount)
    (hread : settleRead db orderId = some ord)
    (hst : ord.status = OrderStatus.AUTHORIZED) :
    (settle db orderId amount randomHex now).1.settlements =
      db.settlements ++
        [{ settlement_id := db.nextSettlementId, order_id := orderId,
           amount := amount, settled_at := now }] ∧
    (settle db orderId amount randomHex now).1.orders =
      db.orders.map (fun o =>
        if o.order_id = orderId then
          { o with status := OrderStatus.SETTLED, updated_at := now }
        else o) ∧
    (settle db orderId amount randomHex now).2 = SettleResponse.ok orderId ∧
    (SettleResponse.ok orderId).httpStatus = 200 := by
  have hle : ¬ amount ≤ 0 := not_le.mpr hamt
  refine ⟨?_, ?_, ?_, rfl⟩ <;>
    simp [settle, hid, hle, hread, settleFinish, hst, insertSettlement,
      settleUpdateOrder]

/-- Witness for C2: settling the AUTHORIZED fixture order with an amount
different from its total answers `paymentStatus: "SETTLED"`. -/
theorem settle_authorized_success_witness :
    (settle dbAuth "ORD1" 60 "cd" 9).2 = SettleResponse.ok "ORD1" :=
  (settle_authorized_success dbAuth "ORD1" 60 "cd" 9
    { order_id := "ORD1", customer_id := 1,
      status := OrderStatus.AUTHORIZED, total_amount := 50,
      created_at := 5, updated_at := 5 }
    (by decide) (by norm_num) (by decide) rfl).2.2.1

/-! ### C3 — authorization backfill during settle -/

/-- C3: when settle runs on an existing AUTHORIZED order that has no
Authorization row, exactly one backfilled Authorization row is appended —
outcome SUCCESS, amount equal to the order's `total_amount` (not the settle
call's amount), `auth_token` the order id concatenated with `_` and the
random hex suffix, `auth_expires_at` the current time plus 7 days; when the
order already has at least one Authorization row, settle appends none. -/
theorem settle_backfills_authorization (db : DB) (orderId : String)
    (amount : ℚ) (randomHex : String) (now : Nat) (ord : OrderRow)
    (hid : orderId ≠ "") (hamt : 0 < amount)
    (hread : settleRead db orderId = some ord)
    (hst : ord.status = OrderStatus.AUTHORIZED) :
    (hasAuthFor db orderId = false →
      (settle db orderId amount randomHex now).1.authorizations =
        db.authorizations ++
          [{ auth_id := db.nextAuthId, order_id := orderId,
             outcome := AuthOutcome.SUCCESS, gateway_code := "00",
             gateway_message := "Approved for settlement",
             amount := ord.total_amount,
             auth_token := some (orderId ++ "_" ++ randomHex),
             auth_expires_at := some (now + sevenDays),
             created_at := now }]) ∧
    (hasAuthFor db orderId = true →
      (settle db orderId amount randomHex now).1.authorizations =
        db.authorizations) := by
  have hle : ¬ amount ≤ 0 := not_le.mpr hamt
  constructor
  · intro hnone
    simp [settle, hid, hle, hread, settleFinish, hst,
      ensureAuthorizationForOrder, hnone, generateAuthToken, insertAuth]
  · intro hsome
    simp [settle, hid, hle, hread, settleFinish, hst,
      ensureAuthorizationForOrder, hsome]

/-- Witness for C3: settling the trail-less AUTHORIZED order ORD9001
backfills exactly the SUCCESS row for the order's total amount; settling
the checked-out fixture order (which already has an authorization row)
appends none. -/
theorem settle_backfills_authorization_witness :
    (settle dbAuthNoTrail "ORD9001" 5 "abcd" 7).1.authorizations =
      dbAuthNoTrail.authorizations ++
        [{ auth_id := dbAuthNoTrail.nextAuthId, order_id := "ORD9001",
           outcome := AuthOutcome.SUCCESS, gateway_code := "00",
           gateway_message := "Approved for settlement",
           amount := 45,
           auth_token := some ("ORD9001" ++ "_" ++ "abcd"),
           auth_expires_at := some (7 + sevenDays), created_at := 7 }] ∧
    (settle dbAuth "ORD1" 5 "abcd" 7).1.authorizations =
      dbAuth.authorizations := by
  constructor
  · exact (settle_backfills_authorization dbAuthNoTrail "ORD9001" 5 "abcd" 7
      { order_id := "ORD9001", customer_id := 1,
        status := OrderStatus.AUTHORIZED, total_amount := 45,
        created_at := 2, updated_at := 2 }
      (by decide) (by norm_num) (by decide) rfl).1 (by decide)
  · exact (settle_backfills_authorization dbAuth "ORD1" 5 "abcd" 7
      { order_id := "ORD1", customer_id := 1,
        status := OrderStatus.AUTHORIZED, total_amount := 50,
        created_at := 5, updated_at := 5 }
      (by decide) (by norm_num) (by decide) rfl).2 (by decide)

end PosBackend

namespace PosBackend

/-! ### C4 — weighted outcome classification and its mappings -/

theorem pick_eq_success_iff (r : ℚ) :
    pickAuthOutcomeWeighted r = CheckoutResult.SUCCESS ↔ r < 60/100 := by
  unfold pickAuthOutcomeWeighted
  split_ifs with h1 h2 h3 <;> simp_all

theorem pick_eq_insufficient_iff (r : ℚ) :
    pickAuthOutcomeWeighted r = CheckoutResult.INSUFFICIENT_FUNDS ↔
      60/100 ≤ r ∧ r < 77/100 := by
  unfold pickAuthOutcomeWeighted
  split_ifs with h1 h2 h3 <;> simp_all <;> intro h <;> linarith

theorem pick_eq_incorrect_iff (r : ℚ) :
    pickAuthOutcomeWeighted r = CheckoutResult.INCORRECT_DETAILS ↔
      77/100 ≤ r ∧ r < 94/100 := by
  unfold pickAuthOutcomeWeighted
  split_ifs with h1 h2 h3 <;> simp_all <;> intro h <;> linarith

theorem pick_eq_serverError_iff (r : ℚ) :
    pickAuthOutcomeWeighted r = CheckoutResult.SERVER_ERROR ↔ 94/100 ≤ r := by
  unfold pickAuthOutcomeWeighted
  split_ifs with h1 h2 h3 <;> simp_all <;> linarith

/-- C4: for a draw `r` in `[0,1)` the four-way result is SUCCESS on
`[0, 0.60)`, INSUFFICIENT_FUNDS on `[0.60, 0.77)`, INCORRECT_DETAILS on
`[0.77, 0.94)` and SERVER_ERROR on `[0.94, 1)`; checkout stores the order
status AUTHORIZED/DECLINED/DECLINED/ERROR respectively, stores the
authorization outcome SUCCESS/DECLINED/ERROR, stores the gateway pairs
00/Approved, 51/Insufficient funds, 14/Incorrect card details,
XX/Authorization server error, and the response carries all three of
result, status and outcome. -/
theorem checkout_outcome_mapping (db : DB) (orderId : String)
    (customerId : Nat) (amount r : ℚ) (now : Nat)
    (hid : orderId ≠ "") (hcid : customerId ≠ 0) (hamt : 0 < amount)
    (hr0 : 0 ≤ r) (hr1 : r < 1) :
    ((r < 60/100 ↔ pickAuthOutcomeWeighted r = CheckoutResult.SUCCESS) ∧
     (60/100 ≤ r ∧ r < 77/100 ↔
        pickAuthOutcomeWeighted r = CheckoutResult.INSUFFICIENT_FUNDS) ∧
     (77/100 ≤ r ∧ r < 94/100 ↔
        pickAuthOutcomeWeighted r = CheckoutResult.INCORRECT_DETAILS) ∧
     (94/100 ≤ r ↔ pickAuthOutcomeWeighted r = CheckoutResult.SERVER_ERROR)) ∧
    (orderStatusOf CheckoutResult.SUCCESS = OrderStatus.AUTHORIZED ∧
     orderStatusOf CheckoutResult.INSUFFICIENT_FUNDS = OrderStatus.DECLINED ∧
     orderStatusOf CheckoutResult.INCORRECT_DETAILS = OrderStatus.DECLINED ∧
     orderStatusOf CheckoutResult.SERVER_ERROR = OrderStatus.ERROR) ∧
    (authOutcomeOf OrderStatus.AUTHORIZED = AuthOutcome.SUCCESS ∧
     authOutcomeOf OrderStatus.DECLINED = AuthOutcome.DECLINED ∧
     authOutcomeOf OrderStatus.ERROR = AuthOutcome.ERROR) ∧
    (gatewayOf CheckoutResult.SUCCESS = ("00", "Approved") ∧
     gatewayOf CheckoutResult.INSUFFICIENT_FUNDS = ("51", "Insufficient funds") ∧
     gatewayOf CheckoutResult.INCORRECT_DETAILS =
       ("14", "Incorrect card details") ∧
     gatewayOf CheckoutResult.SERVER_ERROR =
       ("XX", "Authorization server error")) ∧
    (checkout db orderId customerId amount r now).1.authorizations =
      db.authorizations ++
        [{ auth_id := db.nextAuthId, order_id := orderId,
           outcome := authOutcomeOf (orderStatusOf (pickAuthOutcomeWeighted r)),
           gateway_code := (gatewayOf (pickAuthOutcomeWeighted r)).1,
           gateway_message := (gatewayOf (pickAuthOutcomeWeighted r)).2,
           amount := amount, auth_token := none, auth_expires_at := none,
           created_at := now }] ∧
    (checkout db orderId customerId amount r now).1.orders =
      (upsertOrder db orderId customerId
        (orderStatusOf (pickAuthOutcomeWeighted r)) amount now).orders ∧
    (checkout db orderId customerId amount r now).2 =
      CheckoutResponse.ok
        { orderId := orderId, result := pickAuthOutcomeWeighted r,
          status := orderStatusOf (pickAuthOutcomeWeighted r),
          outcome := authOutcomeOf (orderStatusOf (pickAuthOutcomeWeighted r)) } := by
  have hle : ¬ amount ≤ 0 := not_le.mpr hamt
  refine ⟨⟨(pick_eq_success_iff r).symm, (pick_eq_insufficient_iff r).symm,
      (pick_eq_incorrect_iff r).symm, ?_⟩,
    ⟨rfl, rfl, rfl, rfl⟩, ⟨rfl, rfl, rfl⟩, ⟨rfl, rfl, rfl, rfl⟩, ?_, ?_, ?_⟩
  · exact (pick_eq_serverError_iff r).symm
  · simp [checkout, hid, hcid, hle, insertAuth]
  · simp [checkout, hid, hcid, hle, insertAuth]
  · simp [checkout, hid, hcid, hle]

/-- Witness for C4: a draw of `r = 3/4` is classified INSUFFICIENT_FUNDS. -/
theorem checkout_outcome_mapping_witness :
    pickAuthOutcomeWeighted (3/4) = CheckoutResult.INSUFFICIENT_FUNDS :=
  ((checkout_outcome_mapping dbEmpty "ORD1" 1 50 (3/4) 9
    (by decide) (by decide) (by norm_num) (by norm_num) (by norm_num)).1.2.1).mp
    (by norm_num)

end PosBackend

namespace PosBackend

/-! ### C5 — checkout is idempotent-by-overwrite -/

@[simp]
theorem insertAuth_orders (db : DB) (oid : String) (outc : AuthOutcome)
    (code msg : String) (amt : ℚ) (tok : Option String) (exp : Option Nat)
    (now : Nat) :
    (insertAuth db oid outc code msg amt tok exp now).orders = db.orders := rfl

theorem checkout_valid_eq (db : DB) (oid : String) (cid : Nat) (amt r : ℚ)
    (now : Nat) (hid : oid ≠ "") (hcid : cid ≠ 0) (hamt : 0 < amt) :
    checkout db oid cid amt r now =
      (insertAuth (upsertOrder db oid cid
          (orderStatusOf (pickAuthOutcomeWeighted r)) amt now)
        oid (authOutcomeOf (orderStatusOf (pickAuthOutcomeWeighted r)))
        (gatewayOf (pickAuthOutcomeWeighted r)).1
        (gatewayOf (pickAuthOutcomeWeighted r)).2 amt none none now,
       CheckoutResponse.ok
         { orderId := oid, result := pickAuthOutcomeWeighted r,
           status := orderStatusOf (pickAuthOutcomeWeighted r),
           outcome := authOutcomeOf (orderStatusOf (pickAuthOutcomeWeighted r)) }) := by
  simp [checkout, hid, hcid, not_le.mpr hamt]

theorem ordersFor_upsert_of_mem (db : DB) (oid : String) (cid : Nat)
    (st : OrderStatus) (amt : ℚ) (now : Nat)
    (h : db.orders.any (fun o => o.order_id = oid) = true) :
    ordersFor (upsertOrder db oid cid st amt now) oid =
      (ordersFor db oid).map (fun o =>
        { o with customer_id := cid, status := st, total_amount := amt,
                 updated_at := now }) := by
  unfold ordersFor upsertOrder
  rw [if_pos h]
  rw [List.filter_map]
  have hpf : ((fun o : OrderRow => decide (o.order_id = oid)) ∘
      (fun o : OrderRow => if o.order_id = oid then
        { o with customer_id := cid, status := st, total_amount := amt,
                 updated_at := now } else o)) =
      fun o : OrderRow => decide (o.order_id = oid) := by
    funext o
    by_cases ho : o.order_id = oid <;> simp [ho]
  rw [hpf]
  refine List.map_congr_left fun o ho => ?_
  have h2 : o.order_id = oid := by simpa using (List.mem_filter.mp ho).2
  rw [if_pos h2]

theorem ordersFor_upsert_of_not_mem (db : DB) (oid : String) (cid : Nat)
    (st : OrderStatus) (amt : ℚ) (now : Nat)
    (h : db.orders.any (fun o => o.order_id = oid) = false) :
    ordersFor (upsertOrder db oid cid st amt now) oid =
      [{ order_id := oid, customer_id := cid, status := st,
         total_amount := amt, created_at := now, updated_at := now }] := by
  unfold ordersFor upsertOrder
  rw [if_neg (by simp [h])]
  rw [List.filter_append]
  have hnil : db.orders.filter (fun o => decide (o.order_id = oid)) = [] :=
    List.filter_eq_nil_iff.mpr (List.any_eq_false.mp h)
  simp [hnil]

theorem authsFor_insertAuth_self (db : DB) (oid : String) (outc : AuthOutcome)
    (code msg : String) (amt : ℚ) (tok : Option String) (exp : Option Nat)
    (now : Nat) :
    authsFor (insertAuth db oid outc code msg amt tok exp now) oid =
      authsFor db oid ++
        [{ auth_id := db.nextAuthId, order_id := oid, outcome := outc,
           gateway_code := code, gateway_message := msg, amount := amt,
           auth_token := tok, auth_expires_at := exp, created_at := now }] := by
  unfold authsFor insertAuth
  rw [List.filter_append]
  simp

theorem authsFor_upsertOrder (db : DB) (oid oid2 : String) (cid : Nat)
    (st : OrderStatus) (amt : ℚ) (now : Nat) :
    authsFor (upsertOrder db oid2 cid st amt now) oid = authsFor db oid := by
  unfold authsFor
  rw [upsertOrder_authorizations]

theorem runCheckouts_inv (oid : String) (hid : oid ≠ "") :
    ∀ (calls : List CheckoutCall) (db : DB) (prev : CheckoutCall)
      (created : Nat),
      (∀ c ∈ calls, c.customerId ≠ 0 ∧ 0 < c.amount) →
      ordersFor db oid = [rowOf oid prev created] →
      ordersFor (runCheckouts db oid calls) oid =
          [rowOf oid (calls.getLastD prev) created] ∧
      (authsFor (runCheckouts db oid calls) oid).length =
          (authsFor db oid).length + calls.length := by
  intro calls
  induction calls with
  | nil =>
    intro db prev created _ hOrd
    simpa [runCheckouts] using hOrd
  | cons c cs ih =>
    intro db prev created hv hOrd
    have hvc := hv c (List.mem_cons_self c cs)
    have hvcs : ∀ x ∈ cs, x.customerId ≠ 0 ∧ 0 < x.amount :=
      fun x hx => hv x (List.mem_cons_of_mem c hx)
    have hmem : rowOf oid prev created ∈ ordersFor db oid := by
      rw [hOrd]; exact List.mem_singleton_self _
    have hany : db.orders.any (fun o => o.order_id = oid) = true := by
      refine List.any_eq_true.mpr ⟨rowOf oid prev created,
        (List.mem_filter.mp hmem).1, (List.mem_filter.mp hmem).2⟩
    have hstep := checkout_valid_eq db oid c.customerId c.amount c.r c.now
      hid hvc.1 hvc.2
    have hrun : runCheckouts db oid (c :: cs) =
        runCheckouts (checkout db oid c.customerId c.amount c.r c.now).1 oid cs :=
      rfl
    have hOrd1 : ordersFor (checkout db oid c.customerId c.amount c.r c.now).1
        oid = [rowOf oid c created] := by
      rw [hstep]
      show ordersFor (insertAuth _ _ _ _ _ _ _ _ _) oid = _
      unfold ordersFor
      rw [insertAuth_orders]
      show ordersFor (upsertOrder db oid c.customerId _ c.amount c.now) oid = _
      rw [ordersFor_upsert_of_mem db oid c.customerId _ c.amount c.now hany,
        hOrd]
      simp [rowOf]
    have hAuth1 : (authsFor (checkout db oid c.customerId c.amount c.r
        c.now).1 oid).length = (authsFor db oid).length + 1 := by
      rw [hstep]
      show (authsFor (insertAuth _ _ _ _ _ _ _ _ _) oid).length = _
      rw [authsFor_insertAuth_self, authsFor_upsertOrder]
      simp
    obtain ⟨hA, hB⟩ := ih (checkout db oid c.customerId c.amount c.r c.now).1
      c created hvcs hOrd1
    refine ⟨?_, ?_⟩
    · rw [hrun, hA, List.getLastD_cons]
    · rw [hrun, hB, hAuth1]
      simp only [List.length_cons]
      omega

/-- C5: every valid checkout call appends exactly one new Authorization
row; running `n ≥ 1` valid checkout calls against a fresh order id leaves
exactly one Order row for that id, carrying the customer id, status, total
amount and refreshed `updated_at` of the last call, while `n` Authorization
rows exist for that id. -/
theorem checkout_latest_write_wins (db0 : DB) (oid : String)
    (calls : List CheckoutCall)
    (hid : oid ≠ "")
    (hvalid : ∀ c ∈ calls, c.customerId ≠ 0 ∧ 0 < c.amount)
    (hne : calls ≠ [])
    (hfresh : ordersFor db0 oid = [])
    (hfreshA : authsFor db0 oid = []) :
    (∀ (db : DB) (c : CheckoutCall), c.customerId ≠ 0 → 0 < c.amount →
      (checkout db oid c.customerId c.amount c.r c.now).1.authorizations.length
        = db.authorizations.length + 1) ∧
    (ordersFor (runCheckouts db0 oid calls) oid).length = 1 ∧
    (∀ o ∈ ordersFor (runCheckouts db0 oid calls) oid,
      o.customer_id = (calls.getLastD default).customerId ∧
      o.status =
        orderStatusOf (pickAuthOutcomeWeighted (calls.getLastD default).r) ∧
      o.total_amount = (calls.getLastD default).amount ∧
      o.updated_at = (calls.getLastD default).now) ∧
    (authsFor (runCheckouts db0 oid calls) oid).length = calls.length := by
  obtain ⟨c, cs, rfl⟩ : ∃ c cs, calls = c :: cs := by
    cases calls with
    | nil => exact absurd rfl hne
    | cons c cs => exact ⟨c, cs, rfl⟩
  have hvc := hvalid c (List.mem_cons_self c cs)
  have hvcs : ∀ x ∈ cs, x.customerId ≠ 0 ∧ 0 < x.amount :=
    fun x hx => hvalid x (List.mem_cons_of_mem c hx)
  have hany : db0.orders.any (fun o => o.order_id = oid) = false :=
    List.any_eq_false.mpr (List.filter_eq_nil_iff.mp hfresh)
  have hstep := checkout_valid_eq db0 oid c.customerId c.amount c.r c.now
    hid hvc.1 hvc.2
  have hOrd1 : ordersFor (checkout db0 oid c.customerId c.amount c.r c.now).1
      oid = [rowOf oid c c.now] := by
    rw [hstep]
    show ordersFor (insertAuth _ _ _ _ _ _ _ _ _) oid = _
    unfold ordersFor
    rw [insertAuth_orders]
    show ordersFor (upsertOrder db0 oid c.customerId _ c.amount c.now) oid = _
    rw [ordersFor_upsert_of_not_mem db0 oid c.customerId _ c.amount c.now hany]
    simp [rowOf]
  have hAuth1 : (authsFor (checkout db0 oid c.customerId c.amount c.r
      c.now).1 oid).length = 1 := by
    rw [hstep]
    show (authsFor (insertAuth _ _ _ _ _ _ _ _ _) oid).length = _
    rw [authsFor_insertAuth_self, authsFor_upsertOrder, hfreshA]
    simp
  obtain ⟨hA, hB⟩ := runCheckouts_inv oid hid cs
    (checkout db0 oid c.customerId c.amount c.r c.now).1 c c.now hvcs hOrd1
  have hrun : runCheckouts db0 oid (c :: cs) =
      runCheckouts (checkout db0 oid c.customerId c.amount c.r c.now).1 oid
        cs := rfl
  refine ⟨?_, ?_, ?_, ?_⟩
  · intro db c2 h1 h2
    rw [checkout_valid_eq db oid c2.customerId c2.amount c2.r c2.now hid h1 h2]
    simp [insertAuth]
  · rw [hrun, hA]; rfl
  · intro o ho
    rw [hrun, hA] at ho
    have heq : o = rowOf oid (cs.getLastD c) c.now := List.mem_singleton.mp ho
    subst heq
    rw [List.getLastD_cons]
    simp [rowOf]
  · rw [hrun, hB, hAuth1]
    simp only [List.length_cons]
    omega

/-- Witness for C5: two checkout calls for ORD1 (the second by a different
customer for a different amount) leave one Order row and two Authorization
rows for ORD1. -/
theorem checkout_latest_write_wins_witness :
    (ordersFor (runCheckouts dbEmpty "ORD1"
      [{ customerId := 1, amount := 50, r := 0, now := 10 },
       { customerId := 2, amount := 60, r := 0, now := 20 }]) "ORD1").length
      = 1 ∧
    (authsFor (runCheckouts dbEmpty "ORD1"
      [{ customerId := 1, amount := 50, r := 0, now := 10 },
       { customerId := 2, amount := 60, r := 0, now := 20 }]) "ORD1").length
      = 2 := by
  have h := checkout_latest_write_wins dbEmpty "ORD1"
    [{ customerId := 1, amount := 50, r := 0, now := 10 },
     { customerId := 2, amount := 60, r := 0, now := 20 }]
    (by decide) (by decide) (by decide) rfl rfl
  exact ⟨h.2.1, h.2.2.2⟩

end PosBackend

namespace PosBackend

/-! ### C6 — two interleaved settle requests -/

/-- C6: the settle handler runs its SELECT and its later statements as
separate database operations with no transaction around them
(server.js:440-491), so two settle requests on the same AUTHORIZED order
can both capture the AUTHORIZED row before either UPDATE runs.  In that
schedule both requests pass the status check, both insert a Settlement row
and both answer SETTLED — the claimed mutual exclusion does not hold. -/
theorem settle_race_both_insert :
    (settleRead dbAuth "ORD1").map (fun o => o.status) =
      some OrderStatus.AUTHORIZED ∧
    (settleFinish dbAuth "ORD1" 50 (settleRead dbAuth "ORD1") "aa" 20).2 =
      SettleResponse.ok "ORD1" ∧
    (settleFinish
        (settleFinish dbAuth "ORD1" 50 (settleRead dbAuth "ORD1") "aa" 20).1
        "ORD1" 50 (settleRead dbAuth "ORD1") "bb" 21).2 =
      SettleResponse.ok "ORD1" ∧
    ((settleFinish
        (settleFinish dbAuth "ORD1" 50 (settleRead dbAuth "ORD1") "aa" 20).1
        "ORD1" 50 (settleRead dbAuth "ORD1") "bb" 21).1.settlements.filter
      (fun s => s.order_id = "ORD1")).length = 2 := by
  decide

/-! ### C7 — auth_token presence vs outcome -/

/-- C7 is false as stated: a successful checkout stores an authorization
row whose outcome is SUCCESS but whose `auth_token` is NULL (the checkout
INSERT at server.js:384-395 has no token column), refuting the
"present if and only if SUCCESS" direction. -/
theorem auth_token_iff_success_counterexample :
    ¬ (∀ a ∈ (checkout dbEmpty "ORD1" 1 50 0 10).1.authorizations,
        a.auth_token.isSome = true ↔ a.outcome = AuthOutcome.SUCCESS) := by
  intro h
  have hpick : pickAuthOutcomeWeighted 0 = CheckoutResult.SUCCESS := by
    norm_num [pickAuthOutcomeWeighted]
  have hdb : (checkout dbEmpty "ORD1" 1 50 0 10).1.authorizations =
      [{ auth_id := 1, order_id := "ORD1", outcome := AuthOutcome.SUCCESS,
         gateway_code := "00", gateway_message := "Approved", amount := 50,
         auth_token := none, auth_expires_at := none, created_at := 10 }] := by
    simp [checkout, hpick, insertAuth, upsertOrder, dbEmpty,
      orderStatusOf, authOutcomeOf, gatewayOf,
      show "ORD1" ≠ "" from by decide, show (1 : Nat) ≠ 0 from by decide,
      show ¬ ((50 : ℚ) ≤ 0) from by norm_num]
  have hrow := h _ (by rw [hdb]; exact List.mem_singleton_self _)
  simp at hrow

theorem foldl_upsert_authorizations
    (l : List (String × Nat × OrderStatus × ℚ)) (db : DB) (now : Nat) :
    (l.foldl (fun d o => upsertOrder d o.1 o.2.1 o.2.2.1 o.2.2.2 now)
        db).authorizations = db.authorizations := by
  induction l generalizing db with
  | nil => rfl
  | cons x xs ih => rw [List.foldl_cons, ih, upsertOrder_authorizations]

@[simp]
theorem seedOrders_authorizations (db : DB) (now : Nat) :
    (seedOrders db now).authorizations = db.authorizations :=
  foldl_upsert_authorizations sampleOrders db now

/-- C7 (amended): in every reachable database state, an Authorization row
carrying an `auth_token` has outcome SUCCESS and `auth_expires_at` equal to
its creation time plus 7 days.  The converse of the original claim fails:
checkout stores SUCCESS rows with no token (see the counterexample); only
the settlement backfill writes tokens. -/
theorem auth_token_implies_success_and_expiry (db : DB) (hdb : Reachable db) :
    ∀ a ∈ db.authorizations, a.auth_token.isSome = true →
      a.outcome = AuthOutcome.SUCCESS ∧
      a.auth_expires_at = some (a.created_at + sevenDays) := by
  induction hdb with
  | empty => intro a ha _; cases ha
  | checkout db oid cid amt r now hr ih =>
    intro a ha htok
    by_cases hg : oid = "" ∨ cid = 0
    · rw [show (checkout db oid cid amt r now).1 = db by
        simp [checkout, hg]] at ha
      exact ih a ha htok
    · by_cases ha0 : amt ≤ 0
      · rw [show (checkout db oid cid amt r now).1 = db by
          simp [checkout, hg, ha0]] at ha
        exact ih a ha htok
      · have hca : (checkout db oid cid amt r now).1.authorizations =
            db.authorizations ++
              [{ auth_id := db.nextAuthId, order_id := oid,
                 outcome :=
                   authOutcomeOf (orderStatusOf (pickAuthOutcomeWeighted r)),
                 gateway_code := (gatewayOf (pickAuthOutcomeWeighted r)).1,
                 gateway_message := (gatewayOf (pickAuthOutcomeWeighted r)).2,
                 amount := amt, auth_token := none, auth_expires_at := none,
                 created_at := now }] := by
          simp [checkout, hg, ha0, insertAuth]
        rw [hca] at ha
        rcases List.mem_append.mp ha with h1 | h1
        · exact ih a h1 htok
        · have heq := List.mem_singleton.mp h1
          subst heq
          simp at htok
  | settle db oid amt rh now hr ih =>
    intro a ha htok
    by_cases hg : oid = ""
    · rw [show (settle db oid amt rh now).1 = db by simp [settle, hg]] at ha
      exact ih a ha htok
    · by_cases ha0 : amt ≤ 0
      · rw [show (settle db oid amt rh now).1 = db by
          simp [settle, hg, ha0]] at ha
        exact ih a ha htok
      · cases hread : settleRead db oid with
        | none =>
          rw [show (settle db oid amt rh now).1 = db by
            simp [settle, hg, ha0, hread, settleFinish]] at ha
          exact ih a ha htok
        | some ord =>
          by_cases hst : ord.status = OrderStatus.AUTHORIZED
          · cases hhas : hasAuthFor db oid with
            | true =>
              rw [show (settle db oid amt rh now).1.authorizations =
                  db.authorizations by
                simp [settle, hg, ha0, hread, settleFinish, hst,
                  ensureAuthorizationForOrder, hhas]] at ha
              exact ih a ha htok
            | false =>
              have hca : (settle db oid amt rh now).1.authorizations =
                  db.authorizations ++
                    [{ auth_id := db.nextAuthId, order_id := oid,
                       outcome := AuthOutcome.SUCCESS, gateway_code := "00",
                       gateway_message := "Approved for settlement",
                       amount := ord.total_amount,
                       auth_token := some (oid ++ "_" ++ rh),
                       auth_expires_at := some (now + sevenDays),
                       created_at := now }] := by
                simp [settle, hg, ha0, hread, settleFinish, hst,
                  ensureAuthorizationForOrder, hhas, generateAuthToken,
                  insertAuth]
              rw [hca] at ha
              rcases List.mem_append.mp ha with h1 | h1
              · exact ih a h1 htok
              · have heq := List.mem_singleton.mp h1
                subst heq
                exact ⟨rfl, rfl⟩
          · rw [show (settle db oid amt rh now).1 = db by
              simp [settle, hg, ha0, hread, settleFinish, hst]] at ha
            exact ih a ha htok
  | seed db now hr ih =>
    intro a ha htok
    rw [seedOrders_authorizations] at ha
    exact ih a ha htok

/-- Witness for the amended C7: the backfilled authorization that settling
pre-seeded order ORD9001 creates carries a token, and the theorem yields
its SUCCESS outcome and its creation-time-plus-7-days expiry. -/
theorem auth_token_implies_success_and_expiry_witness :
    ({ auth_id := 1, order_id := "ORD9001", outcome := AuthOutcome.SUCCESS,
       gateway_code := "00", gateway_message := "Approved for settlement",
       amount := 455/10, auth_token := some "ORD9001_ab",
       auth_expires_at := some (9 + sevenDays),
       created_at := 9 } : AuthRow).outcome = AuthOutcome.SUCCESS ∧
    ({ auth_id := 1, order_id := "ORD9001", outcome := AuthOutcome.SUCCESS,
       gateway_code := "00", gateway_message := "Approved for settlement",
       amount := 455/10, auth_token := some "ORD9001_ab",
       auth_expires_at := some (9 + sevenDays),
       created_at := 9 } : AuthRow).auth_expires_at =
      some ((9 : Nat) + sevenDays) := by
  refine auth_token_implies_success_and_expiry
    (settle (seedOrders dbEmpty 0) "ORD9001" 5 "ab" 9).1
    (Reachable.settle _ _ _ _ _ (Reachable.seed _ _ Reachable.empty))
    _ ?_ rfl
  have hauths : (settle (seedOrders dbEmpty 0) "ORD9001" 5 "ab" 9).1.authorizations
      = [{ auth_id := 1, order_id := "ORD9001",
           outcome := AuthOutcome.SUCCESS, gateway_code := "00",
           gateway_message := "Approved for settlement", amount := 455/10,
           auth_token := some "ORD9001_ab",
           auth_expires_at := some (9 + sevenDays), created_at := 9 }] := rfl
  rw [hauths]
  exact List.mem_singleton_self _

end PosBackend

namespace PosBackend

/-! ### C9 — stats is read-only and has empty-table defaults -/

/-- C9: the stats handler issues only SELECTs, so it never changes the
database, and when the orders, authorizations and settlements tables are
all empty it returns per-status totals `{ALL: 0}` (no other keys), no
recent orders, and a settled total of 0. -/
theorem stats_readonly_and_empty_defaults (db : DB) :
    (stats db).1 = db ∧
    (db.orders = [] → db.authorizations = [] → db.settlements = [] →
      (stats db).2 = { totalsByStatus := [], totalsALL := 0,
                       recentOrders := [], settled_total := 0 }) := by
  refine ⟨rfl, ?_⟩
  intro ho _ hs
  simp [stats, statusCounts, sortByCreatedDesc, ho, hs]

/-- Witness for C9: the empty database evaluates to the empty defaults. -/
theorem stats_readonly_and_empty_defaults_witness :
    (stats dbEmpty).1 = dbEmpty ∧
    (stats dbEmpty).2 = { totalsByStatus := [], totalsALL := 0,
                          recentOrders := [], settled_total := 0 } :=
  ⟨(stats_readonly_and_empty_defaults dbEmpty).1,
    (stats_readonly_and_empty_defaults dbEmpty).2 rfl rfl rfl⟩

/-! ### C10 — order upsert persists when the authorization insert fails -/

theorem findOrder_upsertOrder (db : DB) (oid : String) (cid : Nat)
    (st : OrderStatus) (amt : ℚ) (now : Nat) :
    ∃ created, findOrder (upsertOrder db oid cid st amt now) oid =
      some { order_id := oid, customer_id := cid, status := st,
             total_amount := amt, created_at := created,
             updated_at := now } := by
  unfold findOrder upsertOrder
  by_cases h : db.orders.any (fun o => o.order_id = oid) = true
  · rw [if_pos h]
    have hex : (db.orders.find? (fun o => decide (o.order_id = oid))).isSome :=
      List.find?_isSome.mpr (List.any_eq_true.mp h)
    obtain ⟨o1, ho1⟩ := Option.isSome_iff_exists.mp hex
    have ho1p : o1.order_id = oid := by simpa using List.find?_some ho1
    refine ⟨o1.created_at, ?_⟩
    rw [List.find?_map]
    have hpf : ((fun o : OrderRow => decide (o.order_id = oid)) ∘
        (fun o : OrderRow => if o.order_id = oid then
          { o with customer_id := cid, status := st, total_amount := amt,
                   updated_at := now } else o)) =
        fun o : OrderRow => decide (o.order_id = oid) := by
      funext o
      by_cases ho : o.order_id = oid <;> simp [ho]
    rw [hpf, ho1]
    simp [ho1p]
  · rw [if_neg h]
    have hf : db.orders.any (fun o => o.order_id = oid) = false := by
      revert h
      cases db.orders.any (fun o => o.order_id = oid) <;> simp
    have hnone : db.orders.find? (fun o => decide (o.order_id = oid)) = none :=
      List.find?_eq_none.mpr (List.any_eq_false.mp hf)
    refine ⟨now, ?_⟩
    rw [List.find?_append, hnone]
    simp

/-- C10: on the execution where the order upsert succeeds but the
authorization INSERT fails, checkout answers the storage error (HTTP 500)
while the already-applied order upsert persists: the order row for the id
now carries this failed call's customer id, status and total amount, with
`updated_at` refreshed. -/
theorem checkout_auth_failure_keeps_order (db : DB) (oid : String)
    (cid : Nat) (amt r : ℚ) (now : Nat)
    (hid : oid ≠ "") (hcid : cid ≠ 0) (hamt : 0 < amt) :
    checkoutAuthInsertFails db oid cid amt r now =
      (upsertOrder db oid cid (orderStatusOf (pickAuthOutcomeWeighted r)) amt
        now, CheckoutResponse.dbErrorAuthorizations) ∧
    CheckoutResponse.dbErrorAuthorizations.httpStatus = 500 ∧
    (∃ created,
      findOrder (checkoutAuthInsertFails db oid cid amt r now).1 oid =
        some { order_id := oid, customer_id := cid,
               status := orderStatusOf (pickAuthOutcomeWeighted r),
               total_amount := amt, created_at := created,
               updated_at := now }) := by
  have h1 : checkoutAuthInsertFails db oid cid amt r now =
      (upsertOrder db oid cid (orderStatusOf (pickAuthOutcomeWeighted r)) amt
        now, CheckoutResponse.dbErrorAuthorizations) := by
    simp [checkoutAuthInsertFails, hid, hcid, not_le.mpr hamt]
  refine ⟨h1, rfl, ?_⟩
  rw [h1]
  exact findOrder_upsertOrder db oid cid _ amt now

/-- Witness for C10: a failed authorization insert after checking out ORD1
yields the 500 storage error response. -/
theorem checkout_auth_failure_keeps_order_witness :
    (checkoutAuthInsertFails dbEmpty "ORD1" 1 50 0 7).2 =
      CheckoutResponse.dbErrorAuthorizations := by
  have h := (checkout_auth_failure_keeps_order dbEmpty "ORD1" 1 50 0 7
    (by decide) (by decide) (by norm_num)).1
  rw [h]

end PosBackend
